import Mathlib

/-!
# chatgpt-discord: the message handler of `main.go` and `auth.CanInteract`

A shallow embedding of the `MessageCreate` handler registered in `main.go`
(lines 113-195) and of `auth.CanInteract` (`src/auth/auth.go`).

* Go strings are Lean `String`s, Go errors are the `String` of their text,
  a possibly-nil pointer is an `Option`.
* The handler talks to Discord and to the chat backend.  Their answers are
  inputs of the model (`Env`); the calls the handler makes are recorded, in
  program order, in a trace of `Event`s, and the lines it logs in `logs`.
* The feed channel is the list of values it yields plus a flag telling
  whether it is closed afterwards.
-/

namespace ChatGPTDiscord

/-! ## Data model -/

/-- The fields of `discordgo.User` the program reads. -/
structure User where
  ID : String
  Username : String
  Discriminator : String
deriving DecidableEq, Repr

/-- The part of the message behind `m.ReferencedMessage` the handler reads. -/
structure ReferencedMessage where
  Author : User
deriving DecidableEq, Repr

/-- The fields of `discordgo.Message` the handler reads.  `ReferencedMessage`
is a pointer the handler tests against nil, hence an `Option`. -/
structure Message where
  ID : String
  ChannelID : String
  GuildID : String
  Content : String
  Author : User
  Mentions : List User
  ReferencedMessage : Option ReferencedMessage
deriving DecidableEq, Repr

/-- The zero value `discordgo.Message{}` of `var msg discordgo.Message`. -/
def Message.zero : Message :=
  { ID := "", ChannelID := "", GuildID := "", Content := "",
    Author := { ID := "", Username := "", Discriminator := "" },
    Mentions := [], ReferencedMessage := none }

/-- `type Conversation struct` of `main.go`. -/
structure Conversation where
  ConversationID : String
  LastMessageID : String
deriving DecidableEq, Repr

/-- The zero value `Conversation{}`. -/
def Conversation.zero : Conversation := { ConversationID := "", LastMessageID := "" }

/-- The fields of `chatgpt.ChatResponse` the handler reads: one snapshot of
the feed. -/
structure ChatResponse where
  Message : String
  ConversationId : String
  MessageId : String
deriving DecidableEq, Repr

/-- The map `userConversations : map[string]Conversation`; `none` is an absent
key. -/
abbrev ConvMap := String → Option Conversation

/-- Reading `userConversations[k]`: the zero value for an absent key. -/
def ConvMap.get (cm : ConvMap) (k : String) : Conversation :=
  (cm k).getD Conversation.zero

/-- Writing `userConversations[k] = v`. -/
def ConvMap.set (cm : ConvMap) (k : String) (v : Conversation) : ConvMap :=
  fun k' => if k' = k then some v else cm k'

/-- The channel returned by `chatGPT.SendMessage`: the values it yields, in
order, and whether it is closed after them.  A nil channel, on which a receive
blocks forever, is `items := []`, `closes := false`. -/
structure Feed where
  items : List ChatResponse
  closes : Bool
deriving DecidableEq, Repr

/-- What `chatGPT.SendMessage` returns: `(feed, err)`. -/
structure SendMessageResult where
  feed : Feed
  err : Option String
deriving DecidableEq, Repr

/-- What `s.ChannelMessageSendReply` returns: `(*discordgo.Message, error)`;
`msg := none` is the nil pointer. -/
structure SendReplyResult where
  msg : Option Message
  err : Option String
deriving DecidableEq, Repr

/-- Everything the handler takes from outside.
`ChannelMessageSendReply k` is the answer to the handler's `k`-th call of
`s.ChannelMessageSendReply` (counted from 0).  The handler itself calls
`s.ChannelTyping` and `s.ChannelMessageEdit` once each; `ChannelTyping` and
`ChannelMessageEdit` are the errors those calls return.
`EnsureFormatting` is `markdown.EnsureFormatting`, `SendMessage` is
`chatGPT.SendMessage`, `botID` is `s.State.User.ID` and `allowlist` is
`os.Getenv("DISCORD_USERNAME")`. -/
structure Env where
  botID : String
  allowlist : String
  EnsureFormatting : String → String
  SendMessage : String → String → String → SendMessageResult
  ChannelMessageSendReply : Nat → SendReplyResult
  ChannelTyping : Option String
  ChannelMessageEdit : Option String

/-- A step of the handler that is visible outside it: the three calls to the
Discord session, and the calls of the two debounced wrappers built with
`ratelimit.DebounceWithArgs` and `ratelimit.Debounce`. -/
inductive Event where
  | ChannelMessageSendReply (channelID content referenceID : String)
  | ChannelTyping (channelID : String)
  | ChannelMessageEdit (channelID messageID content : String)
  | debouncedEdit (text messageId : String)
  | debouncedType
deriving DecidableEq, Repr

/-- A call of `s.ChannelMessageSendReply`. -/
def Event.isCreate : Event → Bool
  | .ChannelMessageSendReply _ _ _ => true
  | _ => false

/-- An edit: direct (`s.ChannelMessageEdit`) or handed to `debouncedEdit`. -/
def Event.isEdit : Event → Bool
  | .ChannelMessageEdit _ _ _ => true
  | .debouncedEdit _ _ => true
  | _ => false

/-- A direct call to the Discord session (not a debounced wrapper). -/
def Event.isRemote : Event → Bool
  | .ChannelMessageSendReply _ _ _ => true
  | .ChannelTyping _ => true
  | .ChannelMessageEdit _ _ _ => true
  | _ => false

/-! ## `auth.CanInteract` -/

/-- `auth.CanInteract`, with the value of `DISCORD_USERNAME` as a parameter. -/
def CanInteract (allowlist : String) (user : User) : Bool :=
  if allowlist == "" || allowlist == (user.Username ++ "#" ++ user.Discriminator) then
    true
  else
    false

/-! ## Helpers from the Go standard library -/

/-- `unicode.IsSpace`. -/
def isSpace (c : Char) : Bool :=
  let n := c.toNat
  n == 0x09 || n == 0x0A || n == 0x0B || n == 0x0C || n == 0x0D || n == 0x20 ||
  n == 0x85 || n == 0xA0 || n == 0x1680 || (0x2000 ≤ n && n ≤ 0x200A) ||
  n == 0x2028 || n == 0x2029 || n == 0x202F || n == 0x205F || n == 0x3000

/-- `strings.TrimSpace`. -/
def TrimSpace (s : String) : String :=
  String.mk ((s.toList.dropWhile isSpace).reverse.dropWhile isSpace).reverse

/-- The loop of `strings.ReplaceAll` for a non-empty `old`, on characters:
leftmost, non-overlapping occurrences. The first argument bounds the number of
steps. -/
def replaceAllAux (old new : List Char) : Nat → List Char → List Char
  | 0, s => s
  | _ + 1, [] => []
  | fuel + 1, c :: cs =>
    if old.isPrefixOf (c :: cs) then
      new ++ replaceAllAux old new fuel ((c :: cs).drop old.length)
    else
      c :: replaceAllAux old new fuel cs

/-- `strings.ReplaceAll(s, old, new)` for a non-empty `old` (the handler's is
`"<@" + id + ">"`). -/
def ReplaceAll (s old new : String) : String :=
  String.mk (replaceAllAux old.toList new.toList s.length s.toList)

/-! ## The `MessageCreate` handler -/

/-- How a run of the handler ends: it returns, it blocks forever receiving
from a feed that yields nothing more and is not closed, or it panics on a nil
pointer. -/
inductive Exit where
  | returned
  | blocked
  | panicked
deriving DecidableEq, Repr

/-- The handler's local variables and effects so far, inside the
`pollResponse` loop. `sends` counts the calls of `s.ChannelMessageSendReply`,
`received` the snapshots taken from the feed. -/
structure LoopState where
  msg : Message
  lastResp : String
  userConversations : ConvMap
  trace : List Event
  logs : List String
  sends : Nat
  received : Nat
  panicked : Bool

/-- What a run of the handler leaves behind. -/
structure Result where
  userConversations : ConvMap
  trace : List Event
  logs : List String
  received : Nat
  exit : Exit

/-- The log line `log.Printf(prefix + ": %v", err)` when `err != nil`. -/
def logErr (pre : String) : Option String → List String
  | none => []
  | some e => [pre ++ ": " ++ e]

/-- Line 114: the message is the bot's own. -/
def isOwnMessage (botID : String) (m : Message) : Bool :=
  m.Author.ID == botID

/-- Line 118: a guild message that is not addressed to the bot. -/
def isIgnoredGuildMessage (botID : String) (m : Message) : Bool :=
  m.GuildID != "" &&
    ((m.Mentions.length == 0 ||
        (match m.Mentions with
         | [] => false
         | u :: _ => u.ID != botID)) ||
     (match m.ReferencedMessage with
      | none => false
      | some r => r.Author.ID != botID))

/-- Line 130: the query sent to the backend. -/
def queryOf (botID : String) (m : Message) : String :=
  TrimSpace (ReplaceAll m.Content ("<@" ++ botID ++ ">") "")

/-- Line 132: the call `chatGPT.SendMessage(query, ...)` with the tokens stored
for the channel. -/
def backendAnswer (env : Env) (convs : ConvMap) (m : Message) : SendMessageResult :=
  env.SendMessage (queryOf env.botID m)
    (convs.get m.ChannelID).ConversationID (convs.get m.ChannelID).LastMessageID

/-- Lines 132-143: the backend call, the reply that reports its error, and the
first typing indicator.  The error branch has no `return`. -/
def loopEntry (env : Env) (convs : ConvMap) (m : Message) : LoopState :=
  let r := backendAnswer env convs m
  let typing := Event.ChannelTyping m.ChannelID
  match r.err with
  | none =>
    { msg := Message.zero, lastResp := "", userConversations := convs,
      trace := [typing],
      logs := logErr "Couldn't start typing" env.ChannelTyping,
      sends := 0, received := 0, panicked := false }
  | some e =>
    { msg := Message.zero, lastResp := "", userConversations := convs,
      trace := [Event.ChannelMessageSendReply m.ChannelID ("Couldn't send message: " ++ e) m.ID,
                typing],
      logs := logErr "Couldn't send message" (env.ChannelMessageSendReply 0).err ++
              logErr "Couldn't start typing" env.ChannelTyping,
      sends := 1, received := 0, panicked := false }

/-- Lines 170-187: the body of the loop for one received snapshot. -/
def pollStep (env : Env) (m : Message) (st : LoopState) (response : ChatResponse) : LoopState :=
  let convs := st.userConversations.set m.ChannelID
    { LastMessageID := response.MessageId, ConversationID := response.ConversationId }
  let lastResp := env.EnsureFormatting response.Message
  if st.msg.ID == "" then
    let r := env.ChannelMessageSendReply st.sends
    let trace := st.trace ++ [Event.ChannelMessageSendReply m.ChannelID lastResp m.ID]
    let logs := st.logs ++ logErr "Couldn't send message" r.err
    match r.msg with
    | none =>
      -- `msg = *_msg` on a nil pointer
      { st with lastResp := lastResp, userConversations := convs, trace := trace, logs := logs,
                sends := st.sends + 1, received := st.received + 1, panicked := true }
    | some _msg =>
      { st with msg := _msg, lastResp := lastResp, userConversations := convs,
                trace := trace ++ [Event.debouncedType], logs := logs,
                sends := st.sends + 1, received := st.received + 1 }
  else
    { st with lastResp := lastResp, userConversations := convs,
              trace := st.trace ++ [Event.debouncedEdit lastResp st.msg.ID, Event.debouncedType],
              received := st.received + 1 }

/-- Lines 162-189: the `pollResponse` loop over the values the feed yields. -/
def pollLoop (env : Env) (m : Message) : LoopState → List ChatResponse → LoopState
  | st, [] => st
  | st, response :: rest =>
    let st' := pollStep env m st response
    if st'.panicked then st' else pollLoop env m st' rest

/-- Lines 166-168 and 191-194: how the loop is left.  A panic ends the handler;
a closed feed breaks the loop and the final edit follows; on a feed that is not
closed the receive blocks. -/
def finish (env : Env) (m : Message) (st : LoopState) (closes : Bool) : Result :=
  if st.panicked then
    { userConversations := st.userConversations, trace := st.trace, logs := st.logs,
      received := st.received, exit := Exit.panicked }
  else if closes then
    { userConversations := st.userConversations,
      trace := st.trace ++ [Event.ChannelMessageEdit m.ChannelID st.msg.ID st.lastResp],
      logs := st.logs ++ logErr "Couldn't perform final edit" env.ChannelMessageEdit,
      received := st.received, exit := Exit.returned }
  else
    { userConversations := st.userConversations, trace := st.trace, logs := st.logs,
      received := st.received, exit := Exit.blocked }

/-- Lines 122-194: the handler after its two filters. -/
def afterFilters (env : Env) (convs : ConvMap) (m : Message) : Result :=
  if !CanInteract env.allowlist m.Author then
    { userConversations := convs,
      trace := [Event.ChannelMessageSendReply m.ChannelID
                  "You are not authorized to use this bot." m.ID],
      logs := logErr "Couldn't send message" (env.ChannelMessageSendReply 0).err,
      received := 0, exit := Exit.returned }
  else
    let feed := (backendAnswer env convs m).feed
    finish env m (pollLoop env m (loopEntry env convs m) feed.items) feed.closes

/-- A run that did nothing. -/
def Result.nothing (convs : ConvMap) : Result :=
  { userConversations := convs, trace := [], logs := [], received := 0, exit := Exit.returned }

/-- Lines 113-195: the handler `func(s *discordgo.Session, m *discordgo.MessageCreate)`. -/
def MessageCreate (env : Env) (convs : ConvMap) (m : Message) : Result :=
  if isOwnMessage env.botID m then
    Result.nothing convs
  else if isIgnoredGuildMessage env.botID m then
    Result.nothing convs
  else
    afterFilters env convs m

/-! ## The debounced wrappers and the clock

Package `ratelimit` gives the handler two wrappers, `debouncedType` and
`debouncedEdit`.  The handler only ever calls them; a timer calls the wrapped
action later.  Times are milliseconds. -/

/-- Modelled from the spec: `ratelimit.Debounce` and
`ratelimit.DebounceWithArgs`, whose source is not part of the tree (sections
4.1 and 4.2).  An instance has a delay and at most one armed timer; the timer
carries its deadline and the arguments of the most recent call. -/
structure Debounce (α : Type) where
  delay : Nat
  pending : Option (Nat × α)

/-- Modelled from the spec: a call of the wrapper at time `now` (sections 4.1,
4.2 and the invariant of `DebounceState`): the timer is armed to fire `delay`
after this call, replacing an armed timer and its pending arguments. -/
def Debounce.call {α : Type} (d : Debounce α) (now : Nat) (args : α) : Debounce α :=
  { d with pending := some (now + d.delay, args) }

/-- Modelled from the spec: the firing of the timer when its deadline is not
after `now` (sections 4.1, 4.2): the action runs once, at the deadline, with the
arguments of the most recent call, and the timer is idle afterwards.  Nothing
but the end of the process cancels an armed timer (sections 4.1 and 5). -/
def Debounce.fire {α : Type} (d : Debounce α) (now : Nat) : Option (Nat × α) × Debounce α :=
  match d.pending with
  | some (t, a) => if t ≤ now then (some (t, a), { d with pending := none }) else (none, d)
  | none => (none, d)

/-- The handler together with its two wrappers and the calls the Discord
session has received so far, each with its time. -/
structure Timed where
  st : LoopState
  debouncedType : Debounce Unit
  debouncedEdit : Debounce (String × String)
  calls : List (Nat × Event)

/-- Two firings in the order of their deadlines. -/
def firedInOrder : Option (Nat × Event) → Option (Nat × Event) → List (Nat × Event)
  | some a, some b => if a.1 ≤ b.1 then [a, b] else [b, a]
  | some a, none => [a]
  | none, some b => [b]
  | none, none => []

/-- The timers due at `now` fire: the action of `debouncedEdit` (lines 155-160)
calls `s.ChannelMessageEdit(m.ChannelID, messageId, text)`, the action of
`debouncedType` (lines 148-153) calls `s.ChannelTyping(m.ChannelID)`. -/
def Timed.fireDue (m : Message) (now : Nat) (w : Timed) : Timed :=
  let e := w.debouncedEdit.fire now
  let t := w.debouncedType.fire now
  { w with
    debouncedEdit := e.2
    debouncedType := t.2
    calls := w.calls ++ firedInOrder
      (e.1.map fun f => (f.1, Event.ChannelMessageEdit m.ChannelID f.2.2 f.2.1))
      (t.1.map fun f => (f.1, Event.ChannelTyping m.ChannelID)) }

/-- The timers still armed when the handler has ended fire at their deadlines. -/
def Timed.fireRest (m : Message) (w : Timed) : Timed :=
  { w with
    debouncedEdit := { w.debouncedEdit with pending := none }
    debouncedType := { w.debouncedType with pending := none }
    calls := w.calls ++ firedInOrder
      (w.debouncedEdit.pending.map fun f => (f.1, Event.ChannelMessageEdit m.ChannelID f.2.2 f.2.1))
      (w.debouncedType.pending.map fun f => (f.1, Event.ChannelTyping m.ChannelID)) }

/-- One step of the handler seen at time `now`: a call to the session reaches
it at once, a call of a wrapper arms that wrapper's timer. -/
def Timed.observe (now : Nat) (w : Timed) : Event → Timed
  | Event.debouncedEdit text messageId =>
    { w with debouncedEdit := w.debouncedEdit.call now (text, messageId) }
  | Event.debouncedType =>
    { w with debouncedType := w.debouncedType.call now () }
  | e => { w with calls := w.calls ++ [(now, e)] }

/-- The loop on a feed whose values arrive at the given times. -/
def timedLoop (env : Env) (m : Message) : Timed → List (Nat × ChatResponse) → Timed
  | w, [] => w
  | w, (now, response) :: rest =>
    let w1 := w.fireDue m now
    let st' := pollStep env m w1.st response
    let w2 := (st'.trace.drop w1.st.trace.length).foldl (Timed.observe now) { w1 with st := st' }
    if st'.panicked then w2 else timedLoop env m w2 rest

/-- The calls the Discord session receives, with their times, when the handler
is triggered at `start`, the `i`-th value of the feed arrives at `arrivals[i]`
and the feed is closed at `closeAt`.  `debouncedType` has a delay of 10 s,
`debouncedEdit` of 1 s (lines 148 and 155).  A panic ends the process and its
timers with it. -/
def MessageCreateTimed (env : Env) (convs : ConvMap) (m : Message)
    (start : Nat) (arrivals : List Nat) (closeAt : Nat) : List (Nat × Event) :=
  if isOwnMessage env.botID m then
    []
  else if isIgnoredGuildMessage env.botID m then
    []
  else if !CanInteract env.allowlist m.Author then
    [(start, Event.ChannelMessageSendReply m.ChannelID
        "You are not authorized to use this bot." m.ID)]
  else
    let feed := (backendAnswer env convs m).feed
    let st0 := loopEntry env convs m
    let w0 := st0.trace.foldl (Timed.observe start)
      { st := st0, debouncedType := { delay := 10000, pending := none },
        debouncedEdit := { delay := 1000, pending := none }, calls := [] }
    let w := timedLoop env m w0 (arrivals.zip feed.items)
    if w.st.panicked then
      w.calls
    else if feed.closes then
      let w1 := w.fireDue m closeAt
      (Timed.fireRest m { w1 with calls := w1.calls ++
        [(closeAt, Event.ChannelMessageEdit m.ChannelID w1.st.msg.ID w1.st.lastResp)] }).calls
    else
      (w.fireRest m).calls

/-! ## Vocabulary of the statements -/

/-- What a snapshot received after the reply exists adds to the trace. -/
def laterEvents (env : Env) (id : String) (rest : List ChatResponse) : List Event :=
  rest.flatMap fun r => [Event.debouncedEdit (env.EnsureFormatting r.Message) id,
                         Event.debouncedType]

/-- The map entry a snapshot writes (lines 170-173). -/
def tokensOf (r : ChatResponse) : Conversation :=
  { ConversationID := r.ConversationId, LastMessageID := r.MessageId }

/-- The request of an example: a direct message from a user. -/
def exampleMessage : Message :=
  { ID := "m1", ChannelID := "ch", GuildID := "", Content := "hello",
    Author := { ID := "u1", Username := "ada", Discriminator := "0001" },
    Mentions := [], ReferencedMessage := none }

/-- The environment of an example: no allow-list, the identity as text
normalizer, the given answer of the backend and of every reply call. -/
def exampleEnv (backend : SendMessageResult) (reply : Nat → SendReplyResult) : Env :=
  { botID := "bot", allowlist := "", EnsureFormatting := fun s => s,
    SendMessage := fun _ _ _ => backend,
    ChannelMessageSendReply := reply,
    ChannelTyping := none, ChannelMessageEdit := none }

/-- A successful reply call that returns a message with the given id. -/
def replyOK (id : String) : SendReplyResult :=
  { msg := some { Message.zero with ID := id }, err := none }

/-! ## Theorems -/

/-- The loop only appends to the trace. -/
theorem pollStep_trace_append (env : Env) (m : Message) (st : LoopState) (r : ChatResponse) :
    ∃ t, (pollStep env m st r).trace = st.trace ++ t := by
  unfold pollStep
  by_cases h : st.msg.ID = ""
  · cases hr : (env.ChannelMessageSendReply st.sends).msg with
    | none =>
      exact ⟨[Event.ChannelMessageSendReply m.ChannelID (env.EnsureFormatting r.Message) m.ID],
        by simp [h, hr]⟩
    | some x =>
      exact ⟨[Event.ChannelMessageSendReply m.ChannelID (env.EnsureFormatting r.Message) m.ID,
        Event.debouncedType], by simp [h, hr, List.append_assoc]⟩
  · exact ⟨[Event.debouncedEdit (env.EnsureFormatting r.Message) st.msg.ID, Event.debouncedType],
      by simp [h]⟩

/-- The loop only appends to the trace. -/
theorem pollLoop_trace_append (env : Env) (m : Message) (l : List ChatResponse) :
    ∀ st : LoopState, ∃ t, (pollLoop env m st l).trace = st.trace ++ t := by
  induction l with
  | nil => intro st; exact ⟨[], by simp [pollLoop]⟩
  | cons r rs ih =>
    intro st
    obtain ⟨t1, h1⟩ := pollStep_trace_append env m st r
    by_cases hp : (pollStep env m st r).panicked = true
    · exact ⟨t1, by simp [pollLoop, hp, h1]⟩
    · obtain ⟨t2, h2⟩ := ih (pollStep env m st r)
      exact ⟨t1 ++ t2, by simp [pollLoop, hp, h2, h1, List.append_assoc]⟩

/-- The trace at the entry of the loop is not empty. -/
theorem loopEntry_trace_ne_nil (env : Env) (convs : ConvMap) (m : Message) :
    (loopEntry env convs m).trace ≠ [] := by
  simp only [loopEntry]
  split <;> simp

/-- Past the filters the handler always makes a call. -/
theorem afterFilters_trace_ne_nil (env : Env) (convs : ConvMap) (m : Message) :
    (afterFilters env convs m).trace ≠ [] := by
  unfold afterFilters
  by_cases hc : CanInteract env.allowlist m.Author = true
  · simp only [hc, Bool.not_true, Bool.false_eq_true, if_false]
    obtain ⟨t, ht⟩ := pollLoop_trace_append env m
      (backendAnswer env convs m).feed.items (loopEntry env convs m)
    have hne := loopEntry_trace_ne_nil env convs m
    unfold finish
    split
    · simp [ht, hne]
    · split
      · simp
      · simp [ht, hne]
  · simp [hc]

/-- Writing the same key twice keeps the second value. -/
theorem ConvMap.set_set (cm : ConvMap) (k : String) (v w : Conversation) :
    (cm.set k v).set k w = cm.set k w := by
  funext k'
  by_cases h : k' = k <;> simp [ConvMap.set, h]

/-- A write leaves the other keys alone. -/
theorem ConvMap.set_other (cm : ConvMap) (k c : String) (v : Conversation) (h : c ≠ k) :
    (cm.set k v) c = cm c := by
  simp [ConvMap.set, h]

/-- Every step counts its snapshot and writes its tokens, whatever else it does. -/
theorem pollStep_received_convs (env : Env) (m : Message) (st : LoopState) (r : ChatResponse) :
    (pollStep env m st r).received = st.received + 1 ∧
    (pollStep env m st r).userConversations = st.userConversations.set m.ChannelID (tokensOf r) := by
  unfold pollStep
  by_cases h : st.msg.ID = ""
  · cases hr : (env.ChannelMessageSendReply st.sends).msg <;> simp [h, hr, tokensOf]
  · simp [h, tokensOf]

/-- A step with a stored message id hands the text to `debouncedEdit`. -/
theorem pollStep_committed (env : Env) (m : Message) (st : LoopState) (r : ChatResponse)
    (hid : st.msg.ID ≠ "") :
    pollStep env m st r =
      { st with lastResp := env.EnsureFormatting r.Message,
                userConversations := st.userConversations.set m.ChannelID (tokensOf r),
                trace := st.trace ++ [Event.debouncedEdit (env.EnsureFormatting r.Message) st.msg.ID,
                                      Event.debouncedType],
                received := st.received + 1 } := by
  simp [pollStep, hid, tokensOf]

/-- A step without a stored message id whose reply call returns a message. -/
theorem pollStep_create (env : Env) (m : Message) (st : LoopState) (r : ChatResponse)
    (msg : Message) (hid : st.msg.ID = "")
    (hr : (env.ChannelMessageSendReply st.sends).msg = some msg) :
    pollStep env m st r =
      { st with msg := msg, lastResp := env.EnsureFormatting r.Message,
                userConversations := st.userConversations.set m.ChannelID (tokensOf r),
                trace := st.trace ++
                  [Event.ChannelMessageSendReply m.ChannelID (env.EnsureFormatting r.Message) m.ID,
                   Event.debouncedType],
                logs := st.logs ++
                  logErr "Couldn't send message" (env.ChannelMessageSendReply st.sends).err,
                sends := st.sends + 1, received := st.received + 1 } := by
  simp [pollStep, hid, hr, tokensOf, List.append_assoc]

/-- The loop from a state with a stored message id: the id stays, every
snapshot goes to `debouncedEdit`, nothing panics. -/
theorem pollLoop_committed (env : Env) (m : Message) (l : List ChatResponse) :
    ∀ st : LoopState, st.msg.ID ≠ "" → st.panicked = false →
      (pollLoop env m st l).msg = st.msg ∧
      (pollLoop env m st l).panicked = false ∧
      (pollLoop env m st l).trace = st.trace ++ laterEvents env st.msg.ID l ∧
      (pollLoop env m st l).lastResp =
        (l.getLast?.map fun r => env.EnsureFormatting r.Message).getD st.lastResp ∧
      (pollLoop env m st l).received = st.received + l.length := by
  induction l with
  | nil => intro st _ hp; simp [pollLoop, laterEvents, hp]
  | cons r rs ih =>
    intro st hid hp
    have hstep := pollStep_committed env m st r hid
    have hp1 : (pollStep env m st r).panicked = false := by rw [hstep]; exact hp
    have hid1 : (pollStep env m st r).msg.ID ≠ "" := by rw [hstep]; exact hid
    obtain ⟨h1, h2, h3, h4, h5⟩ := ih (pollStep env m st r) hid1 hp1
    have hloop : pollLoop env m st (r :: rs) = pollLoop env m (pollStep env m st r) rs := by
      simp [pollLoop, hp1]
    rw [hloop]
    refine ⟨?_, h2, ?_, ?_, ?_⟩
    · rw [h1, hstep]
    · rw [h3, hstep]
      simp [laterEvents, List.flatMap_cons, List.append_assoc]
    · rw [h4, hstep]
      cases rs with
      | nil => simp
      | cons r2 rs2 =>
        obtain ⟨x, hx⟩ : ∃ x, (r2 :: rs2).getLast? = some x :=
          ⟨_, List.getLast?_eq_getLast _ (by simp)⟩
        simp [List.getLast?_cons_cons, hx]
    · rw [h5, hstep]
      simp only [List.length_cons]
      omega

/-- The text of the last snapshot, from the text of the first and the rest. -/
theorem getLast_text (f : ChatResponse → String) (first : ChatResponse)
    (rest : List ChatResponse) (h : first :: rest ≠ []) :
    (rest.getLast?.map f).getD (f first) = f ((first :: rest).getLast h) := by
  cases rest with
  | nil => simp
  | cons r2 rs2 =>
    have hne : r2 :: rs2 ≠ [] := by simp
    simp [List.getLast?_eq_getLast _ hne, List.getLast_cons hne]

/-- Past the filters and the allow-list, the handler is the loop and its end. -/
theorem MessageCreate_eq_finish (env : Env) (convs : ConvMap) (m : Message)
    (hown : isOwnMessage env.botID m = false)
    (hguild : isIgnoredGuildMessage env.botID m = false)
    (hauth : CanInteract env.allowlist m.Author = true) :
    MessageCreate env convs m =
      finish env m (pollLoop env m (loopEntry env convs m) (backendAnswer env convs m).feed.items)
        (backendAnswer env convs m).feed.closes := by
  simp [MessageCreate, afterFilters, hown, hguild, hauth]

/-- The state at the entry of the loop when the backend call succeeded. -/
theorem loopEntry_ok (env : Env) (convs : ConvMap) (m : Message)
    (herr : (backendAnswer env convs m).err = none) :
    loopEntry env convs m =
      { msg := Message.zero, lastResp := "", userConversations := convs,
        trace := [Event.ChannelTyping m.ChannelID],
        logs := logErr "Couldn't start typing" env.ChannelTyping,
        sends := 0, received := 0, panicked := false } := by
  simp [loopEntry, herr]

/-- The loop after a first snapshot whose reply call returned a message with a
non-empty id. -/
theorem pollLoop_first_reply (env : Env) (convs : ConvMap) (m : Message)
    (first : ChatResponse) (rest : List ChatResponse) (reply : Message)
    (herr : (backendAnswer env convs m).err = none)
    (hreply : (env.ChannelMessageSendReply 0).msg = some reply) (hid : reply.ID ≠ "") :
    (pollLoop env m (loopEntry env convs m) (first :: rest)).msg = reply ∧
    (pollLoop env m (loopEntry env convs m) (first :: rest)).panicked = false ∧
    (pollLoop env m (loopEntry env convs m) (first :: rest)).trace =
      [Event.ChannelTyping m.ChannelID,
       Event.ChannelMessageSendReply m.ChannelID (env.EnsureFormatting first.Message) m.ID,
       Event.debouncedType] ++ laterEvents env reply.ID rest ∧
    (pollLoop env m (loopEntry env convs m) (first :: rest)).lastResp =
      env.EnsureFormatting ((first :: rest).getLast (by simp)).Message ∧
    (pollLoop env m (loopEntry env convs m) (first :: rest)).received = rest.length + 1 := by
  have h0 := loopEntry_ok env convs m herr
  have hstep := pollStep_create env m (loopEntry env convs m) first reply
    (by rw [h0]; rfl) (by rw [h0]; exact hreply)
  have hp1 : (pollStep env m (loopEntry env convs m) first).panicked = false := by
    rw [hstep, h0]
  have hid1 : (pollStep env m (loopEntry env convs m) first).msg.ID ≠ "" := by
    rw [hstep]; exact hid
  obtain ⟨h1, h2, h3, h4, h5⟩ :=
    pollLoop_committed env m rest (pollStep env m (loopEntry env convs m) first) hid1 hp1
  have hloop : pollLoop env m (loopEntry env convs m) (first :: rest) =
      pollLoop env m (pollStep env m (loopEntry env convs m) first) rest := by
    simp [pollLoop, hp1]
  rw [hloop]
  refine ⟨?_, h2, ?_, ?_, ?_⟩
  · rw [h1, hstep]
  · rw [h3, hstep, h0]; simp
  · rw [h4, hstep]
    exact getLast_text (fun r => env.EnsureFormatting r.Message) first rest (by simp)
  · rw [h5, hstep, h0]; simp; omega

/-- One step when the reply calls that matter return a message with id `id`:
afterwards the stored id is `id`. -/
theorem pollStep_reply_id (env : Env) (m : Message) (id : String)
    (H : ∀ k, (k = 0 ∨ id = "") → (env.ChannelMessageSendReply k).msg.map Message.ID = some id)
    (st : LoopState) (r : ChatResponse) (hp : st.panicked = false)
    (hinv : (st.msg.ID = "" ∧ (st.sends = 0 ∨ id = "")) ∨ st.msg.ID = id) :
    (pollStep env m st r).panicked = false ∧
    (pollStep env m st r).msg.ID = id ∧
    (pollStep env m st r).lastResp = env.EnsureFormatting r.Message ∧
    (pollStep env m st r).received = st.received + 1 := by
  by_cases he : st.msg.ID = ""
  · have hk : st.sends = 0 ∨ id = "" := by
      rcases hinv with ⟨_, h⟩ | h
      · exact h
      · exact Or.inr (h.symm.trans he)
    obtain ⟨msg, hmsg, hmid⟩ := Option.map_eq_some'.mp (H st.sends hk)
    rw [pollStep_create env m st r msg he hmsg]
    exact ⟨hp, hmid, rfl, rfl⟩
  · have hid : st.msg.ID = id := by
      rcases hinv with ⟨h, _⟩ | h
      · exact absurd h he
      · exact h
    rw [pollStep_committed env m st r he]
    exact ⟨hp, hid, rfl, rfl⟩

/-- The loop when the reply calls that matter return a message with id `id`. -/
theorem pollLoop_reply_id (env : Env) (m : Message) (id : String)
    (H : ∀ k, (k = 0 ∨ id = "") → (env.ChannelMessageSendReply k).msg.map Message.ID = some id)
    (l : List ChatResponse) :
    ∀ st : LoopState, st.panicked = false → st.msg.ID = id →
      (pollLoop env m st l).panicked = false ∧
      (pollLoop env m st l).msg.ID = id ∧
      (pollLoop env m st l).lastResp =
        (l.getLast?.map fun r => env.EnsureFormatting r.Message).getD st.lastResp ∧
      (pollLoop env m st l).received = st.received + l.length := by
  induction l with
  | nil => intro st hp hid; simp [pollLoop, hp, hid]
  | cons r rs ih =>
    intro st hp hid
    obtain ⟨s1, s2, s3, s4⟩ := pollStep_reply_id env m id H st r hp (Or.inr hid)
    obtain ⟨h1, h2, h3, h4⟩ := ih (pollStep env m st r) s1 s2
    have hloop : pollLoop env m st (r :: rs) = pollLoop env m (pollStep env m st r) rs := by
      simp [pollLoop, s1]
    rw [hloop]
    refine ⟨h1, h2, ?_, ?_⟩
    · rw [h3, s3]
      rw [getLast_text (fun r => env.EnsureFormatting r.Message) r rs (by simp)]
      simp [List.getLast?_eq_getLast _ (List.cons_ne_nil r rs)]
    · rw [h4, s4]
      simp only [List.length_cons]
      omega

/-- The state at the entry of the loop when the backend call failed. -/
theorem loopEntry_err (env : Env) (convs : ConvMap) (m : Message) (e : String)
    (herr : (backendAnswer env convs m).err = some e) :
    loopEntry env convs m =
      { msg := Message.zero, lastResp := "", userConversations := convs,
        trace := [Event.ChannelMessageSendReply m.ChannelID ("Couldn't send message: " ++ e) m.ID,
                  Event.ChannelTyping m.ChannelID],
        logs := logErr "Couldn't send message" (env.ChannelMessageSendReply 0).err ++
                logErr "Couldn't start typing" env.ChannelTyping,
        sends := 1, received := 0, panicked := false } := by
  simp [loopEntry, herr]

/-- The end of the handler only appends to the trace. -/
theorem finish_trace_append (env : Env) (m : Message) (st : LoopState) (closes : Bool) :
    ∃ t, (finish env m st closes).trace = st.trace ++ t := by
  unfold finish
  split
  · exact ⟨[], by simp⟩
  · split
    · exact ⟨[Event.ChannelMessageEdit m.ChannelID st.msg.ID st.lastResp], rfl⟩
    · exact ⟨[], by simp⟩

/-- The map after the loop holds the tokens of the last snapshot received; the
loop receives every snapshot unless it panics. -/
theorem pollLoop_convs (env : Env) (m : Message) (l : List ChatResponse) :
    ∀ st : LoopState, st.panicked = false →
      (pollLoop env m st l).userConversations =
        (match (l.take ((pollLoop env m st l).received - st.received)).getLast? with
         | none => st.userConversations
         | some r => st.userConversations.set m.ChannelID (tokensOf r)) ∧
      st.received ≤ (pollLoop env m st l).received ∧
      ((pollLoop env m st l).panicked = false →
        (pollLoop env m st l).received = st.received + l.length) := by
  induction l with
  | nil => intro st _; simp [pollLoop]
  | cons r rs ih =>
    intro st _
    obtain ⟨hrec, hconv⟩ := pollStep_received_convs env m st r
    by_cases hp1 : (pollStep env m st r).panicked = true
    · have hloop : pollLoop env m st (r :: rs) = pollStep env m st r := by
        simp [pollLoop, hp1]
      rw [hloop, hrec, hconv]
      refine ⟨?_, by omega, ?_⟩
      · have hk : st.received + 1 - st.received = 1 := by omega
        rw [hk]; simp
      · intro h; rw [hp1] at h; exact absurd h (by simp)
    · have hp1f : (pollStep env m st r).panicked = false := by
        cases h : (pollStep env m st r).panicked
        · rfl
        · exact absurd h hp1
      have hloop : pollLoop env m st (r :: rs) = pollLoop env m (pollStep env m st r) rs := by
        simp [pollLoop, hp1f]
      obtain ⟨h1, h2, h3⟩ := ih (pollStep env m st r) hp1f
      rw [hloop]
      refine ⟨?_, by omega, ?_⟩
      · have hk : (pollLoop env m (pollStep env m st r) rs).received - st.received =
            ((pollLoop env m (pollStep env m st r) rs).received -
              (pollStep env m st r).received) + 1 := by omega
        rw [hk, List.take_succ_cons, h1, hconv]
        cases ht : (rs.take ((pollLoop env m (pollStep env m st r) rs).received -
            (pollStep env m st r).received)) with
        | nil => simp
        | cons x xs =>
          obtain ⟨y, hy⟩ : ∃ y, (x :: xs).getLast? = some y :=
            ⟨_, List.getLast?_eq_getLast _ (by simp)⟩
          simp [List.getLast?_cons_cons, hy, ConvMap.set_set]
      · intro h
        rw [h3 h, hrec]
        simp only [List.length_cons]
        omega

/-- No call of a wrapper is a reply call. -/
theorem laterEvents_no_create (env : Env) (id : String) (rest : List ChatResponse) :
    ∀ e ∈ laterEvents env id rest, e.isCreate = false := by
  intro e he
  simp only [laterEvents, List.mem_flatMap] at he
  obtain ⟨r, _, hr⟩ := he
  simp at hr
  rcases hr with hr | hr <;> simp [hr, Event.isCreate]

/-- C9: `auth.CanInteract` answers true exactly when the allow-list setting is
empty or equals `Username ++ "#" ++ Discriminator`; an empty allow-list admits
every user, a non-empty one exactly the users whose name and discriminator
concatenate to it, with no case folding, no trimming and no list of users. -/
theorem CanInteract_iff_allowlist (allowlist : String) (user : User) :
    (CanInteract allowlist user = true ↔
      (allowlist = "" ∨ allowlist = user.Username ++ "#" ++ user.Discriminator)) ∧
    CanInteract "" user = true ∧
    (allowlist ≠ "" →
      (CanInteract allowlist user = true ↔
        allowlist = user.Username ++ "#" ++ user.Discriminator)) ∧
    CanInteract "Ada#0001" { ID := "1", Username := "ada", Discriminator := "0001" } = false ∧
    CanInteract " ada#0001" { ID := "1", Username := "ada", Discriminator := "0001" } = false ∧
    CanInteract "ada#0001,bob#0002" { ID := "1", Username := "ada", Discriminator := "0001" }
      = false := by
  refine ⟨?_, ?_, ?_, ?_, ?_, ?_⟩
  · simp [CanInteract]
  · simp [CanInteract]
  · intro h
    simp [CanInteract, h]
  · decide
  · decide
  · decide

/-- C10: the handler goes on to the authorization check and the backend call
exactly when the author is not the bot and the message is either a direct
message (empty `GuildID`) or a guild message whose first mention is the bot and
which references no message or a message written by the bot; otherwise it
returns with no call made and the conversation map untouched.  Going on always
leaves at least one call in the trace. -/
theorem MessageCreate_trigger_filter (env : Env) (convs : ConvMap) (m : Message) :
    ((m.Author.ID ≠ env.botID ∧
        (m.GuildID = "" ∨
          ((∃ u rest, m.Mentions = u :: rest ∧ u.ID = env.botID) ∧
           (m.ReferencedMessage = none ∨
            ∃ r, m.ReferencedMessage = some r ∧ r.Author.ID = env.botID)))) →
      MessageCreate env convs m = afterFilters env convs m) ∧
    (¬ (m.Author.ID ≠ env.botID ∧
        (m.GuildID = "" ∨
          ((∃ u rest, m.Mentions = u :: rest ∧ u.ID = env.botID) ∧
           (m.ReferencedMessage = none ∨
            ∃ r, m.ReferencedMessage = some r ∧ r.Author.ID = env.botID)))) →
      (MessageCreate env convs m).trace = [] ∧
      (MessageCreate env convs m).logs = [] ∧
      (MessageCreate env convs m).userConversations = convs ∧
      (MessageCreate env convs m).exit = Exit.returned) ∧
    (afterFilters env convs m).trace ≠ [] := by
  refine ⟨?_, ?_, afterFilters_trace_ne_nil env convs m⟩
  · rintro ⟨hown, hguild⟩
    have h1 : isOwnMessage env.botID m = false := by simp [isOwnMessage, hown]
    have h2 : isIgnoredGuildMessage env.botID m = false := by
      rcases hguild with hg | ⟨⟨u, rest, hm, hu⟩, href⟩
      · simp [isIgnoredGuildMessage, hg]
      · rcases href with hr | ⟨r, hr, hra⟩
        · simp [isIgnoredGuildMessage, hm, hu, hr]
        · simp [isIgnoredGuildMessage, hm, hu, hr, hra]
    simp [MessageCreate, h1, h2]
  · intro hnot
    have h : isOwnMessage env.botID m = true ∨ isIgnoredGuildMessage env.botID m = true := by
      by_cases hown : m.Author.ID = env.botID
      · left; simp [isOwnMessage, hown]
      · right
        by_cases hg : m.GuildID = ""
        · exact absurd ⟨hown, Or.inl hg⟩ hnot
        · cases hm : m.Mentions with
          | nil => simp [isIgnoredGuildMessage, hg, hm]
          | cons u rest =>
            by_cases hu : u.ID = env.botID
            · cases hr : m.ReferencedMessage with
              | none => exact absurd ⟨hown, Or.inr ⟨⟨u, rest, hm, hu⟩, Or.inl hr⟩⟩ hnot
              | some r =>
                by_cases hra : r.Author.ID = env.botID
                · exact absurd ⟨hown, Or.inr ⟨⟨u, rest, hm, hu⟩, Or.inr ⟨r, hr, hra⟩⟩⟩ hnot
                · simp [isIgnoredGuildMessage, hg, hm, hr, hu, hra]
            · simp [isIgnoredGuildMessage, hg, hm, hu]
    rcases h with h | h
    · simp [MessageCreate, h, Result.nothing]
    · by_cases h1 : isOwnMessage env.botID m = true
      · simp [MessageCreate, h1, Result.nothing]
      · simp [MessageCreate, h1, h, Result.nothing]

/-- C6: when the reply call on the first snapshot returned a message with a
non-empty id, every later snapshot makes no direct call to the session: it
calls `debouncedEdit` exactly once, in stream order, with the normalized text
of that snapshot and the id returned for the first one (and then
`debouncedType`).  The whole trace of the handler is the typing call, the
reply, these wrapper calls, and the final edit once the feed is closed. -/
theorem later_snapshots_go_to_debouncedEdit (env : Env) (convs : ConvMap) (m : Message)
    (first : ChatResponse) (rest : List ChatResponse) (closes : Bool) (reply : Message)
    (hown : isOwnMessage env.botID m = false)
    (hguild : isIgnoredGuildMessage env.botID m = false)
    (hauth : CanInteract env.allowlist m.Author = true)
    (hfeed : backendAnswer env convs m = ⟨⟨first :: rest, closes⟩, none⟩)
    (hreply : (env.ChannelMessageSendReply 0).msg = some reply) (hid : reply.ID ≠ "") :
    (MessageCreate env convs m).trace =
      [Event.ChannelTyping m.ChannelID,
       Event.ChannelMessageSendReply m.ChannelID (env.EnsureFormatting first.Message) m.ID,
       Event.debouncedType] ++
      (rest.flatMap fun r =>
        [Event.debouncedEdit (env.EnsureFormatting r.Message) reply.ID, Event.debouncedType]) ++
      (if closes then
        [Event.ChannelMessageEdit m.ChannelID reply.ID
          (env.EnsureFormatting ((first :: rest).getLast (by simp)).Message)]
       else []) := by
  have herr : (backendAnswer env convs m).err = none := by rw [hfeed]
  obtain ⟨h1, h2, h3, h4, _⟩ :=
    pollLoop_first_reply env convs m first rest reply herr hreply hid
  rw [MessageCreate_eq_finish env convs m hown hguild hauth, hfeed]
  cases closes <;> simp [finish, h1, h2, h3, h4, laterEvents]

/-- C1: when the feed yields at least one snapshot and is then closed, and the
reply call succeeds and returns a message with id `id`, the handler returns and
its last call to the session is the direct `ChannelMessageEdit(channel, id, t)`,
with `t` the normalized text of the last snapshot, however many snapshots came
before. -/
theorem terminal_flush (env : Env) (convs : ConvMap) (m : Message)
    (items : List ChatResponse) (id : String)
    (hown : isOwnMessage env.botID m = false)
    (hguild : isIgnoredGuildMessage env.botID m = false)
    (hauth : CanInteract env.allowlist m.Author = true)
    (hfeed : backendAnswer env convs m = ⟨⟨items, true⟩, none⟩)
    (hne : items ≠ [])
    (hreply : (env.ChannelMessageSendReply 0).err = none ∧
      (env.ChannelMessageSendReply 0).msg.map Message.ID = some id)
    (hall : id ≠ "" ∨ ∀ k, (env.ChannelMessageSendReply k).msg.map Message.ID = some id) :
    (MessageCreate env convs m).exit = Exit.returned ∧
    (MessageCreate env convs m).received = items.length ∧
    ((MessageCreate env convs m).trace.filter Event.isRemote).getLast? =
      some (Event.ChannelMessageEdit m.ChannelID id
        (env.EnsureFormatting (items.getLast hne).Message)) ∧
    (MessageCreate env convs m).trace.getLast? =
      some (Event.ChannelMessageEdit m.ChannelID id
        (env.EnsureFormatting (items.getLast hne).Message)) := by
  have H : ∀ k, (k = 0 ∨ id = "") →
      (env.ChannelMessageSendReply k).msg.map Message.ID = some id := by
    intro k hk
    rcases hk with hk | hk
    · rw [hk]; exact hreply.2
    · rcases hall with h | h
      · exact absurd hk h
      · exact h k
  have herr : (backendAnswer env convs m).err = none := by rw [hfeed]
  have h0 := loopEntry_ok env convs m herr
  cases items with
  | nil => exact absurd rfl hne
  | cons first rest =>
    obtain ⟨s1, s2, s3, s4⟩ := pollStep_reply_id env m id H (loopEntry env convs m) first
      (by rw [h0]) (Or.inl ⟨by rw [h0]; rfl, Or.inl (by rw [h0])⟩)
    obtain ⟨h1, h2, h3, h4⟩ :=
      pollLoop_reply_id env m id H rest (pollStep env m (loopEntry env convs m) first) s1 s2
    have hloop : pollLoop env m (loopEntry env convs m) (first :: rest) =
        pollLoop env m (pollStep env m (loopEntry env convs m) first) rest := by
      simp [pollLoop, s1]
    have hlast : (pollLoop env m (loopEntry env convs m) (first :: rest)).lastResp =
        env.EnsureFormatting ((first :: rest).getLast hne).Message := by
      rw [hloop, h3, s3]
      exact getLast_text (fun r => env.EnsureFormatting r.Message) first rest hne
    rw [MessageCreate_eq_finish env convs m hown hguild hauth, hfeed]
    simp only [finish]
    have hrec : (loopEntry env convs m).received = 0 := by rw [h0]
    rw [hloop] at hlast ⊢
    simp [h1, h2, h4, s4, hrec, hlast, List.filter_append, Event.isRemote,
      List.getLast?_append]
    omega

/-- Witness of C1: three snapshots, reply id `"42"`. -/
theorem terminal_flush_witness :
    (MessageCreate
      (exampleEnv ⟨⟨[⟨"a", "c", "1"⟩, ⟨"ab", "c", "2"⟩, ⟨"abc", "c", "3"⟩], true⟩, none⟩
        (fun _ => replyOK "42")) (fun _ => none) exampleMessage).trace.getLast? =
      some (Event.ChannelMessageEdit "ch" "42" "abc") :=
  (terminal_flush
    (exampleEnv ⟨⟨[⟨"a", "c", "1"⟩, ⟨"ab", "c", "2"⟩, ⟨"abc", "c", "3"⟩], true⟩, none⟩
      (fun _ => replyOK "42")) (fun _ => none) exampleMessage
    [⟨"a", "c", "1"⟩, ⟨"ab", "c", "2"⟩, ⟨"abc", "c", "3"⟩] "42"
    (by decide) (by decide) (by decide) rfl (by simp) ⟨rfl, rfl⟩ (Or.inl (by decide))).2.2.2

/-- Witness of C6: three snapshots, reply id `"42"`. -/
theorem later_snapshots_go_to_debouncedEdit_witness :
    (MessageCreate
      (exampleEnv ⟨⟨[⟨"a", "c", "1"⟩, ⟨"ab", "c", "2"⟩, ⟨"abc", "c", "3"⟩], true⟩, none⟩
        (fun _ => replyOK "42")) (fun _ => none) exampleMessage).trace =
      [Event.ChannelTyping "ch", Event.ChannelMessageSendReply "ch" "a" "m1",
       Event.debouncedType,
       Event.debouncedEdit "ab" "42", Event.debouncedType,
       Event.debouncedEdit "abc" "42", Event.debouncedType,
       Event.ChannelMessageEdit "ch" "42" "abc"] :=
  later_snapshots_go_to_debouncedEdit
    (exampleEnv ⟨⟨[⟨"a", "c", "1"⟩, ⟨"ab", "c", "2"⟩, ⟨"abc", "c", "3"⟩], true⟩, none⟩
      (fun _ => replyOK "42")) (fun _ => none) exampleMessage
    ⟨"a", "c", "1"⟩ [⟨"ab", "c", "2"⟩, ⟨"abc", "c", "3"⟩] true { Message.zero with ID := "42" }
    (by decide) (by decide) (by decide) rfl rfl (by decide)

/-- C2 (the code does otherwise): when the feed is closed without having
yielded a snapshot, the handler makes no reply call but still makes the final
edit, `ChannelMessageEdit(channel, "", "")`, with the empty message id and the
empty text. -/
theorem empty_stream_edits_empty_id (env : Env) (convs : ConvMap) (m : Message)
    (hown : isOwnMessage env.botID m = false)
    (hguild : isIgnoredGuildMessage env.botID m = false)
    (hauth : CanInteract env.allowlist m.Author = true)
    (hfeed : backendAnswer env convs m = ⟨⟨[], true⟩, none⟩) :
    (MessageCreate env convs m).trace =
      [Event.ChannelTyping m.ChannelID, Event.ChannelMessageEdit m.ChannelID "" ""] ∧
    (MessageCreate env convs m).exit = Exit.returned := by
  have herr : (backendAnswer env convs m).err = none := by rw [hfeed]
  rw [MessageCreate_eq_finish env convs m hown hguild hauth, hfeed,
    loopEntry_ok env convs m herr]
  simp [pollLoop, finish, Message.zero]

/-- Witness of C2: the empty closed feed. -/
theorem empty_stream_edits_empty_id_witness :
    (MessageCreate (exampleEnv ⟨⟨[], true⟩, none⟩ (fun _ => replyOK "42"))
      (fun _ => none) exampleMessage).trace =
      [Event.ChannelTyping "ch", Event.ChannelMessageEdit "ch" "" ""] :=
  (empty_stream_edits_empty_id (exampleEnv ⟨⟨[], true⟩, none⟩ (fun _ => replyOK "42"))
    (fun _ => none) exampleMessage (by decide) (by decide) (by decide) rfl).1

/-- C4 (the code does otherwise): when `chatGPT.SendMessage` returns an error,
the handler reports it as a reply and then goes on: the next call is the typing
indicator, and the loop is entered; on the nil feed it blocks forever. -/
theorem backend_error_falls_through (env : Env) (convs : ConvMap) (m : Message) (e : String)
    (hown : isOwnMessage env.botID m = false)
    (hguild : isIgnoredGuildMessage env.botID m = false)
    (hauth : CanInteract env.allowlist m.Author = true)
    (herr : (backendAnswer env convs m).err = some e) :
    (MessageCreate env convs m).trace.take 2 =
      [Event.ChannelMessageSendReply m.ChannelID ("Couldn't send message: " ++ e) m.ID,
       Event.ChannelTyping m.ChannelID] ∧
    ((backendAnswer env convs m).feed = ⟨[], false⟩ →
      (MessageCreate env convs m).exit = Exit.blocked ∧
      (MessageCreate env convs m).trace =
        [Event.ChannelMessageSendReply m.ChannelID ("Couldn't send message: " ++ e) m.ID,
         Event.ChannelTyping m.ChannelID]) := by
  have h0 := loopEntry_err env convs m e herr
  rw [MessageCreate_eq_finish env convs m hown hguild hauth]
  constructor
  · obtain ⟨t1, ht1⟩ := pollLoop_trace_append env m (backendAnswer env convs m).feed.items
      (loopEntry env convs m)
    obtain ⟨t2, ht2⟩ := finish_trace_append env m
      (pollLoop env m (loopEntry env convs m) (backendAnswer env convs m).feed.items)
      (backendAnswer env convs m).feed.closes
    rw [ht2, ht1, h0]
    simp
  · intro hf
    rw [hf, h0]
    simp [pollLoop, finish]

/-- Witness of C4: the backend returns the nil feed and the error `"boom"`. -/
theorem backend_error_falls_through_witness :
    (MessageCreate (exampleEnv ⟨⟨[], false⟩, some "boom"⟩ (fun _ => replyOK "42"))
      (fun _ => none) exampleMessage).trace.take 2 =
      [Event.ChannelMessageSendReply "ch" "Couldn't send message: boom" "m1",
       Event.ChannelTyping "ch"] :=
  (backend_error_falls_through (exampleEnv ⟨⟨[], false⟩, some "boom"⟩ (fun _ => replyOK "42"))
    (fun _ => none) exampleMessage "boom" (by decide) (by decide) (by decide) rfl).1

/-- C5 (the code does otherwise): when the reply call on the first snapshot
fails and returns the nil pointer, the handler logs the failure and panics on
`msg = *_msg`: it receives no further snapshot and makes no further call, in
particular no final edit. -/
theorem create_failure_nil_pointer_panics (env : Env) (convs : ConvMap) (m : Message)
    (first : ChatResponse) (rest : List ChatResponse) (closes : Bool) (e : String)
    (hown : isOwnMessage env.botID m = false)
    (hguild : isIgnoredGuildMessage env.botID m = false)
    (hauth : CanInteract env.allowlist m.Author = true)
    (hfeed : backendAnswer env convs m = ⟨⟨first :: rest, closes⟩, none⟩)
    (hreply : env.ChannelMessageSendReply 0 = ⟨none, some e⟩) :
    (MessageCreate env convs m).exit = Exit.panicked ∧
    (MessageCreate env convs m).received = 1 ∧
    (MessageCreate env convs m).trace =
      [Event.ChannelTyping m.ChannelID,
       Event.ChannelMessageSendReply m.ChannelID (env.EnsureFormatting first.Message) m.ID] ∧
    (MessageCreate env convs m).logs =
      logErr "Couldn't start typing" env.ChannelTyping ++ ["Couldn't send message: " ++ e] := by
  have herr : (backendAnswer env convs m).err = none := by rw [hfeed]
  rw [MessageCreate_eq_finish env convs m hown hguild hauth, hfeed,
    loopEntry_ok env convs m herr]
  simp [pollLoop, pollStep, finish, Message.zero, hreply, logErr]

/-- Witness of C5: two snapshots, the reply call answers `(nil, "HTTP 403")`. -/
theorem create_failure_nil_pointer_panics_witness :
    (MessageCreate
      (exampleEnv ⟨⟨[⟨"a", "c", "1"⟩, ⟨"ab", "c", "2"⟩], true⟩, none⟩
        (fun _ => ⟨none, some "HTTP 403"⟩)) (fun _ => none) exampleMessage).exit =
      Exit.panicked :=
  (create_failure_nil_pointer_panics
    (exampleEnv ⟨⟨[⟨"a", "c", "1"⟩, ⟨"ab", "c", "2"⟩], true⟩, none⟩
      (fun _ => ⟨none, some "HTTP 403"⟩)) (fun _ => none) exampleMessage
    ⟨"a", "c", "1"⟩ [⟨"ab", "c", "2"⟩] true "HTTP 403"
    (by decide) (by decide) (by decide) rfl rfl).1

/-- C7: every snapshot received overwrites the entry of the triggering channel
with that snapshot's `(ConversationId, MessageId)`.  After the run the entry
holds the tokens of the last snapshot received, every snapshot of the feed is
received unless the handler panics, the entries of all other channels are
unchanged, and with no snapshot the map is unchanged. -/
theorem continuation_tokens (env : Env) (convs : ConvMap) (m : Message)
    (hown : isOwnMessage env.botID m = false)
    (hguild : isIgnoredGuildMessage env.botID m = false)
    (hauth : CanInteract env.allowlist m.Author = true) :
    (∀ (st : LoopState) (r : ChatResponse),
      (pollStep env m st r).userConversations =
        st.userConversations.set m.ChannelID
          { ConversationID := r.ConversationId, LastMessageID := r.MessageId }) ∧
    (MessageCreate env convs m).userConversations =
      (match ((backendAnswer env convs m).feed.items.take
          (MessageCreate env convs m).received).getLast? with
       | none => convs
       | some r => convs.set m.ChannelID
          { ConversationID := r.ConversationId, LastMessageID := r.MessageId }) ∧
    ((MessageCreate env convs m).exit ≠ Exit.panicked →
      (MessageCreate env convs m).received = (backendAnswer env convs m).feed.items.length) ∧
    ((MessageCreate env convs m).exit ≠ Exit.panicked →
      ∀ h : (backendAnswer env convs m).feed.items ≠ [],
        (MessageCreate env convs m).userConversations m.ChannelID =
          some { ConversationID := ((backendAnswer env convs m).feed.items.getLast h).ConversationId,
                 LastMessageID := ((backendAnswer env convs m).feed.items.getLast h).MessageId }) ∧
    (∀ c, c ≠ m.ChannelID → (MessageCreate env convs m).userConversations c = convs c) ∧
    ((backendAnswer env convs m).feed.items = [] →
      (MessageCreate env convs m).userConversations = convs) := by
  have hp0 : (loopEntry env convs m).panicked = false := by
    simp only [loopEntry]; split <;> rfl
  have hc0 : (loopEntry env convs m).userConversations = convs := by
    simp only [loopEntry]; split <;> rfl
  have hr0 : (loopEntry env convs m).received = 0 := by
    simp only [loopEntry]; split <;> rfl
  obtain ⟨h1, _, h3⟩ :=
    pollLoop_convs env m (backendAnswer env convs m).feed.items (loopEntry env convs m) hp0
  rw [hc0, hr0, Nat.sub_zero] at h1
  rw [hr0, Nat.zero_add] at h3
  have hfin : ∀ st closes, (finish env m st closes).userConversations = st.userConversations ∧
      (finish env m st closes).received = st.received ∧
      ((finish env m st closes).exit ≠ Exit.panicked → st.panicked = false) := by
    intro st closes
    unfold finish
    cases hp : st.panicked <;> cases closes <;> simp
  obtain ⟨f1, f2, f3⟩ := hfin
    (pollLoop env m (loopEntry env convs m) (backendAnswer env convs m).feed.items)
    (backendAnswer env convs m).feed.closes
  rw [MessageCreate_eq_finish env convs m hown hguild hauth, f1, f2]
  have hmain : (pollLoop env m (loopEntry env convs m)
      (backendAnswer env convs m).feed.items).userConversations =
      (match ((backendAnswer env convs m).feed.items.take
          (pollLoop env m (loopEntry env convs m)
            (backendAnswer env convs m).feed.items).received).getLast? with
       | none => convs
       | some r => convs.set m.ChannelID
          { ConversationID := r.ConversationId, LastMessageID := r.MessageId }) := h1
  refine ⟨fun st r => (pollStep_received_convs env m st r).2, hmain, fun h => h3 (f3 h), ?_, ?_, ?_⟩
  · intro h hne
    rw [hmain, h3 (f3 h), List.take_length, List.getLast?_eq_getLast _ hne]
    simp [ConvMap.set]
  · intro c hc
    rw [hmain]
    split
    · rfl
    · exact ConvMap.set_other convs m.ChannelID c _ hc
  · intro hnil
    rw [hmain, hnil]
    simp

/-- Witness of C7: three snapshots; the entry of the channel ends as the tokens
of the third. -/
theorem continuation_tokens_witness :
    (MessageCreate
      (exampleEnv ⟨⟨[⟨"a", "c", "1"⟩, ⟨"ab", "c", "2"⟩, ⟨"abc", "c", "3"⟩], true⟩, none⟩
        (fun _ => replyOK "42")) (fun _ => none) exampleMessage).userConversations "ch" =
      some { ConversationID := "c", LastMessageID := "3" } :=
  (continuation_tokens
    (exampleEnv ⟨⟨[⟨"a", "c", "1"⟩, ⟨"ab", "c", "2"⟩, ⟨"abc", "c", "3"⟩], true⟩, none⟩
      (fun _ => replyOK "42")) (fun _ => none) exampleMessage
    (by decide) (by decide) (by decide)).2.2.2.1 (by decide) (by simp [backendAnswer, exampleEnv])

/-- C3, refuted as stated: with two snapshots and a first reply call that fails
and returns a message with the empty id, the stored id is still empty at the
second snapshot and the reply call is made a second time. -/
theorem create_called_twice :
    ¬ ((MessageCreate
        (exampleEnv ⟨⟨[⟨"a", "c", "1"⟩, ⟨"ab", "c", "2"⟩], true⟩, none⟩
          (fun _ => ⟨some Message.zero, some "HTTP 500"⟩))
        (fun _ => none) exampleMessage).trace.countP Event.isCreate ≤ 1) := by
  decide

/-- C3, amended: when the first reply call returns a message with a non-empty
id, the reply call is made at most once; the stored id is empty before the
first snapshot and is the returned id after every later one; and with at least
one snapshot the trace starts with the typing call and the reply call, so no
edit, direct or handed to `debouncedEdit`, comes before the reply call, and no
reply call comes after it. -/
theorem lifecycle_monotone (env : Env) (convs : ConvMap) (m : Message)
    (items : List ChatResponse) (closes : Bool) (reply : Message)
    (hown : isOwnMessage env.botID m = false)
    (hguild : isIgnoredGuildMessage env.botID m = false)
    (hauth : CanInteract env.allowlist m.Author = true)
    (hfeed : backendAnswer env convs m = ⟨⟨items, closes⟩, none⟩)
    (hreply : (env.ChannelMessageSendReply 0).msg = some reply) (hid : reply.ID ≠ "") :
    (MessageCreate env convs m).trace.countP Event.isCreate ≤ 1 ∧
    (∀ k, k ≤ items.length →
      (pollLoop env m (loopEntry env convs m) (items.take k)).msg.ID =
        if k = 0 then "" else reply.ID) ∧
    (∀ first rest, items = first :: rest →
      ∃ post, (MessageCreate env convs m).trace =
        [Event.ChannelTyping m.ChannelID,
         Event.ChannelMessageSendReply m.ChannelID (env.EnsureFormatting first.Message) m.ID] ++
          post ∧
        ∀ e ∈ post, e.isCreate = false) := by
  have herr : (backendAnswer env convs m).err = none := by rw [hfeed]
  have h0 := loopEntry_ok env convs m herr
  have hpost : ∀ first rest, items = first :: rest →
      ∃ post, (MessageCreate env convs m).trace =
        [Event.ChannelTyping m.ChannelID,
         Event.ChannelMessageSendReply m.ChannelID (env.EnsureFormatting first.Message) m.ID] ++
          post ∧
        ∀ e ∈ post, e.isCreate = false := by
    intro first rest hit
    obtain ⟨h1, h2, h3, h4, _⟩ :=
      pollLoop_first_reply env convs m first rest reply herr hreply hid
    have hno := laterEvents_no_create env reply.ID rest
    rw [MessageCreate_eq_finish env convs m hown hguild hauth, hfeed, hit]
    cases closes
    · refine ⟨Event.debouncedType :: laterEvents env reply.ID rest, ?_, ?_⟩
      · simp [finish, h2, h3]
      · intro e he
        rcases List.mem_cons.mp he with he | he
        · simp [he, Event.isCreate]
        · exact hno e he
    · refine ⟨Event.debouncedType :: (laterEvents env reply.ID rest ++
        [Event.ChannelMessageEdit m.ChannelID reply.ID
          (env.EnsureFormatting ((first :: rest).getLast (by simp)).Message)]), ?_, ?_⟩
      · simp [finish, h1, h2, h3, h4]
      · intro e he
        rcases List.mem_cons.mp he with he | he
        · simp [he, Event.isCreate]
        · rcases List.mem_append.mp he with he | he
          · exact hno e he
          · simp at he
            simp [he, Event.isCreate]
  refine ⟨?_, ?_, hpost⟩
  · cases hit : items with
    | nil =>
      rw [MessageCreate_eq_finish env convs m hown hguild hauth, hfeed, hit, h0]
      cases closes <;> simp [pollLoop, finish, Event.isCreate]
    | cons first rest =>
      obtain ⟨post, hp, hpno⟩ := hpost first rest hit
      have hz : post.countP Event.isCreate = 0 :=
        List.countP_eq_zero.mpr (fun e he => by simp [hpno e he])
      rw [hp, List.countP_append, hz]
      simp [List.countP_cons, Event.isCreate]
  · intro k hk
    cases k with
    | zero => simp [pollLoop, h0, Message.zero]
    | succ j =>
      cases hit : items with
      | nil => rw [hit] at hk; simp at hk
      | cons first rest =>
        rw [List.take_succ_cons]
        obtain ⟨h1, _⟩ :=
          pollLoop_first_reply env convs m first (rest.take j) reply herr hreply hid
        rw [h1]
        simp

/-- Witness of the amended C3: three snapshots, reply id `"42"`. -/
theorem lifecycle_monotone_witness :
    (MessageCreate
      (exampleEnv ⟨⟨[⟨"a", "c", "1"⟩, ⟨"ab", "c", "2"⟩, ⟨"abc", "c", "3"⟩], true⟩, none⟩
        (fun _ => replyOK "42")) (fun _ => none) exampleMessage).trace.countP Event.isCreate
      ≤ 1 :=
  (lifecycle_monotone
    (exampleEnv ⟨⟨[⟨"a", "c", "1"⟩, ⟨"ab", "c", "2"⟩, ⟨"abc", "c", "3"⟩], true⟩, none⟩
      (fun _ => replyOK "42")) (fun _ => none) exampleMessage
    [⟨"a", "c", "1"⟩, ⟨"ab", "c", "2"⟩, ⟨"abc", "c", "3"⟩] true { Message.zero with ID := "42" }
    (by decide) (by decide) (by decide) rfl rfl (by decide)).1

/-- C8, refuted as stated: in the scenario (delay 1 s, `"a"` at 0 ms, `"ab"` at
200 ms, `"abc"` at 900 ms, closure at 950 ms, reply id `"42"`) the create and
edit calls the session receives are not just the reply and one edit. -/
theorem scenario_not_single_edit :
    ¬ (((MessageCreateTimed
        (exampleEnv ⟨⟨[⟨"a", "c", "1"⟩, ⟨"ab", "c", "2"⟩, ⟨"abc", "c", "3"⟩], true⟩, none⟩
          (fun _ => replyOK "42"))
        (fun _ => none) exampleMessage 0 [0, 200, 900] 950).map Prod.snd).filter
          (fun e => e.isCreate || e.isEdit) =
      [Event.ChannelMessageSendReply "ch" "a" "m1",
       Event.ChannelMessageEdit "ch" "42" "abc"]) := by
  decide

/-- C8, amended: in the scenario the session receives the reply with the
normalized `"a"` at 0 ms, the final edit with the normalized `"abc"` at 950 ms,
and then, at 1900 ms, a second edit with the same id and text from the timer of
`debouncedEdit` armed at 900 ms, which nothing cancels; with them the typing
call at 0 ms and the one of `debouncedType` at 10900 ms. -/
theorem scenario_timer_fires_after_flush (env : Env) (convs : ConvMap) (m : Message)
    (c1 m1 c2 m2 c3 m3 : String) (reply : Message)
    (hown : isOwnMessage env.botID m = false)
    (hguild : isIgnoredGuildMessage env.botID m = false)
    (hauth : CanInteract env.allowlist m.Author = true)
    (hfeed : backendAnswer env convs m =
      ⟨⟨[⟨"a", c1, m1⟩, ⟨"ab", c2, m2⟩, ⟨"abc", c3, m3⟩], true⟩, none⟩)
    (hreply : (env.ChannelMessageSendReply 0).msg = some reply) (hid : reply.ID ≠ "") :
    MessageCreateTimed env convs m 0 [0, 200, 900] 950 =
      [(0, Event.ChannelTyping m.ChannelID),
       (0, Event.ChannelMessageSendReply m.ChannelID (env.EnsureFormatting "a") m.ID),
       (950, Event.ChannelMessageEdit m.ChannelID reply.ID (env.EnsureFormatting "abc")),
       (1900, Event.ChannelMessageEdit m.ChannelID reply.ID (env.EnsureFormatting "abc")),
       (10900, Event.ChannelTyping m.ChannelID)] := by
  have herr : (backendAnswer env convs m).err = none := by rw [hfeed]
  have h0 := loopEntry_ok env convs m herr
  simp [MessageCreateTimed, hown, hguild, hauth, hfeed, h0, timedLoop, pollStep, hreply, hid,
    Timed.fireDue, Timed.fireRest, Timed.observe, Debounce.fire, Debounce.call, firedInOrder,
    Message.zero]

/-- Witness of the amended C8: the scenario with reply id `"42"`. -/
theorem scenario_timer_fires_after_flush_witness :
    MessageCreateTimed
      (exampleEnv ⟨⟨[⟨"a", "c", "1"⟩, ⟨"ab", "c", "2"⟩, ⟨"abc", "c", "3"⟩], true⟩, none⟩
        (fun _ => replyOK "42")) (fun _ => none) exampleMessage 0 [0, 200, 900] 950 =
      [(0, Event.ChannelTyping "ch"),
       (0, Event.ChannelMessageSendReply "ch" "a" "m1"),
       (950, Event.ChannelMessageEdit "ch" "42" "abc"),
       (1900, Event.ChannelMessageEdit "ch" "42" "abc"),
       (10900, Event.ChannelTyping "ch")] :=
  scenario_timer_fires_after_flush
    (exampleEnv ⟨⟨[⟨"a", "c", "1"⟩, ⟨"ab", "c", "2"⟩, ⟨"abc", "c", "3"⟩], true⟩, none⟩
      (fun _ => replyOK "42")) (fun _ => none) exampleMessage
    "c" "1" "c" "2" "c" "3" { Message.zero with ID := "42" }
    (by decide) (by decide) (by decide) rfl rfl (by decide)

end ChatGPTDiscord
